import Mathlib

/-!
Shallow embedding of the job-orchestration core of the gen-scene-studio
backend: the model registry and style→model map, the credits ledger, the
durable job store, the in-memory job registry, and the enterprise job
manager operations (enqueue, process, cancel, recovery) together with the
status API, as implemented in `src/worker/enterprise_manager.py`,
`src/models/dao.py` and `src/main.py`.

Machine dictionaries are embedded as association lists whose lookup takes
the first matching key (Python dict assignment is embedded as a cons that
shadows earlier entries, preserving lookup semantics).  Fallible external
effects (the database write during enqueue, the ffmpeg crop, the handler
body) are passed in as explicit outcome parameters.
-/

set_option autoImplicit false

namespace GenScene

/-- Association-list lookup: first entry whose key matches. -/
def alookup {α : Type} : List (String × α) → String → Option α
  | [], _ => none
  | (k, v) :: rest, key => if k = key then some v else alookup rest key

/-- Pointwise update of every entry holding the given key. -/
def aupdate {α : Type} (l : List (String × α)) (key : String) (f : α → α) :
    List (String × α) :=
  l.map (fun p => if p.1 = key then (p.1, f p.2) else p)

/-! ## Model registry (`STYLE_TO_MODEL`, `VIDEO_MODELS_INFO`, `get_video_model`) -/

/-- One record of the static video-model table `VIDEO_MODELS_INFO`. -/
structure ModelInfo where
  id : String
  name : String
  tier : String
  credits5s : Nat
  maxDuration : Nat
  deriving DecidableEq, Repr

/-- The style → default-model map from `enterprise_manager.py`. -/
def STYLE_TO_MODEL : List (String × String) :=
  [ ("photorealistic", "runway-gen3"),
    ("realistic", "runway-gen3"),
    ("fantasy_epic", "runway-gen3"),
    ("epic", "runway-gen3"),
    ("anime_style", "wan/2-6-text-to-video"),
    ("anime", "wan/2-6-text-to-video"),
    ("stylized", "wan/2-6-text-to-video"),
    ("cinematic_realism", "wan/2-6-text-to-video"),
    ("cinematic", "wan/2-6-text-to-video"),
    ("documentary", "wan/2-6-text-to-video"),
    ("artistic", "wan/2-6-text-to-video"),
    ("fantasy", "wan/2-6-text-to-video"),
    ("dramatic", "wan/2-6-text-to-video"),
    ("minimalist", "wan/2-6-text-to-video"),
    ("simple", "wan/2-6-text-to-video"),
    ("fast", "wan/2-6-text-to-video"),
    ("social_media", "wan/2-6-text-to-video"),
    ("tiktok", "wan/2-6-text-to-video"),
    ("reels", "wan/2-6-text-to-video"),
    ("shorts", "wan/2-6-text-to-video"),
    ("vintage", "wan/2-6-text-to-video"),
    ("retro", "wan/2-6-text-to-video"),
    ("default", "wan/2-6-text-to-video") ]

/-- The static model table `VIDEO_MODELS_INFO` from `enterprise_manager.py`
(the fields the core reads: id, display name, tier, credits per 5 s,
max duration). -/
def VIDEO_MODELS_INFO : List (String × ModelInfo) :=
  [ ("runway-gen3",
      { id := "runway-gen3", name := "Runway Gen-3", tier := "high",
        credits5s := 200, maxDuration := 10 }),
    ("veo3",
      { id := "veo3", name := "Google Veo 3.1", tier := "premium",
        credits5s := 350, maxDuration := 8 }),
    ("sora-2-pro-text-to-video",
      { id := "sora-2-pro-text-to-video", name := "OpenAI Sora 2 Pro",
        tier := "premium", credits5s := 400, maxDuration := 20 }),
    ("kling/v2-1-pro",
      { id := "kling/v2-1-pro", name := "Kling v2.1 Pro", tier := "high",
        credits5s := 250, maxDuration := 10 }),
    ("hailuo/2-3-image-to-video-pro",
      { id := "hailuo/2-3-image-to-video-pro", name := "Hailuo I2V",
        tier := "economic", credits5s := 180, maxDuration := 6 }),
    ("bytedance/v1-pro-text-to-video",
      { id := "bytedance/v1-pro-text-to-video", name := "Bytedance v1",
        tier := "economic", credits5s := 150, maxDuration := 5 }),
    ("wan/2-6-text-to-video",
      { id := "wan/2-6-text-to-video", name := "Wan 2.6", tier := "economic",
        credits5s := 60, maxDuration := 10 }),
    ("wan/2-2-a14b-text-to-video-turbo",
      { id := "wan/2-2-a14b-text-to-video-turbo", name := "Wan Turbo",
        tier := "economic", credits5s := 120, maxDuration := 5 }) ]

/-- Python `video_model_override in VIDEO_MODELS_INFO` (dict key membership). -/
def isKnownModel (m : String) : Bool :=
  (VIDEO_MODELS_INFO.map Prod.fst).contains m

/-- Python `STYLE_TO_MODEL.get(style_key, STYLE_TO_MODEL["default"])`. -/
def styleDefaultModel (styleKey : String) : String :=
  (alookup STYLE_TO_MODEL styleKey).getD
    ((alookup STYLE_TO_MODEL "default").getD "")

/-- The guard `if video_model_override and video_model_override in
VIDEO_MODELS_INFO` (a present empty string is falsy in Python). -/
def overrideAccepted : Option String → Bool
  | some m => (m != "") && isKnownModel m
  | none => false

/-- `get_video_model` from `enterprise_manager.py`: the user override wins
when it names a known model; otherwise the style default, with the map's
`"default"` entry as fallback. -/
def get_video_model (styleKey : String) (override : Option String) : String :=
  match override with
  | some m =>
      if (m != "") && isKnownModel m then m else styleDefaultModel styleKey
  | none => styleDefaultModel styleKey

/-! ## Credits ledger -/

/-- Modelled from the spec: one transaction of the append-only credits log
(§4.C: timestamp omitted, user, delta, type, optional job reference,
description).  The implementing module `repositories/credits_repository.py`
is not part of src; only its callers are. -/
structure CreditTx where
  user : String
  amount : Int
  txType : String
  jobRef : Option String
  description : String
  deriving DecidableEq, Repr

/-- Modelled from the spec: the per-user credits ledger, an append-only
transaction list; balance is the sum of deltas (§4.C). -/
structure Ledger where
  txs : List CreditTx
  deriving DecidableEq, Repr

/-- Balance of a user: sum of that user's transaction deltas. -/
def balanceOf (l : Ledger) (u : String) : Int :=
  (l.txs.filter (fun t => t.user == u)).foldl (fun acc t => acc + t.amount) 0

/-- Modelled from the spec: `CreditsRepository.deduct_credits` (absent from
src).  Spec §4.C: atomically checks balance ≥ amount with amount > 0,
appends a debit tagged with the job id; a failed debit returns
`(false, "insufficient")` and leaves balance and log unchanged. -/
def deduct_credits (l : Ledger) (user : String) (amount : Nat)
    (jobId : String) (description : String) : Bool × String × Ledger :=
  if 0 < amount ∧ (amount : Int) ≤ balanceOf l user then
    (true, "ok",
      { txs := { user := user, amount := -(amount : Int), txType := "debit",
                 jobRef := some jobId, description := description } :: l.txs })
  else
    (false, "insufficient", l)

/-- Modelled from the spec: `CreditsRepository.add_credits` (absent from
src).  Spec §4.C: `credit(user, amount, type, description, job_id?)`
appends one transaction and increases the balance; the job reference is
optional and recorded only when the caller passes it. -/
def add_credits (l : Ledger) (user : String) (amount : Nat)
    (txType : String) (description : String) (jobRef : Option String) :
    Ledger :=
  { txs := { user := user, amount := (amount : Int), txType := txType,
             jobRef := jobRef, description := description } :: l.txs }

/-! ## Payloads -/

/-- The request fields the core reads out of a submission payload
(`payload["request"]` or the payload itself). -/
structure RequestData where
  ideaText : Option String
  styleKey : Option String
  videoModel : Option String
  videoDuration : Option Nat
  videoQuality : Option String
  aspectRatio : Option String
  deriving DecidableEq, Repr

/-- A `RequestData` with every field absent. -/
def RequestData.empty : RequestData :=
  { ideaText := none, styleKey := none, videoModel := none,
    videoDuration := none, videoQuality := none, aspectRatio := none }

/-- The payload dict as the core reads it: the keys the manager itself
consults (`job_id`, `user_id`, `credits_cost`, `text`), the request-like
keys at top level, and the nested `request` document. -/
structure Payload where
  jobId : Option String
  userId : Option String
  creditsCost : Option Nat
  text : Option String
  top : RequestData
  request : Option RequestData
  deriving DecidableEq, Repr

/-- Python `payload.get("request", payload)` in the pipeline handler. -/
def requestDataOf (p : Payload) : RequestData := p.request.getD p.top

/-! ## Job store (`models/dao.py`) -/

/-- One row of the `jobs` table: state, progress, created_at, job_type,
payload (persisted verbatim). -/
structure StoreRow where
  state : String
  progress : Nat
  createdAt : Nat
  jobType : String
  payload : Payload
  deriving DecidableEq, Repr

/-- The `jobs` table, keyed by `job_id`. -/
abbrev Store := List (String × StoreRow)

/-- `upsert_job` from `models/dao.py`: inserts a fresh row recording
`created_at = now`, or updates state, progress, job_type and payload of the
existing row while leaving its `created_at` untouched. -/
def upsert_job (store : Store) (now : Nat) (jobId state : String)
    (progress : Nat) (jobType : String) (payload : Payload) : Store :=
  match alookup store jobId with
  | some _ =>
      aupdate store jobId (fun old =>
        { state := state, progress := progress, createdAt := old.createdAt,
          jobType := jobType, payload := payload })
  | none =>
      (jobId, { state := state, progress := progress, createdAt := now,
                jobType := jobType, payload := payload }) :: store

/-! ## In-memory jobs and manager state -/

/-- `EnterpriseJob.__init__`: a live job record.  A fresh job starts
`queued` at progress 0 with `max_retries = 3`, `current_retry = 0` and a
300-second default timeout. -/
structure EnterpriseJob where
  jobId : String
  jobType : String
  payload : Payload
  status : String
  progress : Nat
  createdAt : Nat
  startedAt : Option Nat
  completedAt : Option Nat
  errorMessage : Option String
  metadata : List (String × String)
  maxRetries : Nat
  currentRetry : Nat
  timeout : Nat
  deriving DecidableEq, Repr

/-- The `EnterpriseJob` constructor at wall-clock time `now`. -/
def mkEnterpriseJob (jobId jobType : String) (payload : Payload)
    (now : Nat) : EnterpriseJob :=
  { jobId := jobId, jobType := jobType, payload := payload,
    status := "queued", progress := 0, createdAt := now, startedAt := none,
    completedAt := none, errorMessage := none, metadata := [],
    maxRetries := 3, currentRetry := 0, timeout := 300 }

/-- The manager's atomic stats counters. -/
structure Stats where
  totalJobs : Nat
  completedJobs : Nat
  failedJobs : Nat
  cancelledJobs : Nat
  deriving DecidableEq, Repr

/-- The whole observable state of the enterprise job manager: the
in-memory registry `_jobs`, the FIFO work queue (put appends at the back),
the durable store, the credits ledger and the stats counters. -/
structure ManagerState where
  jobs : List (String × EnterpriseJob)
  queue : List EnterpriseJob
  store : Store
  ledger : Ledger
  stats : Stats
  deriving DecidableEq, Repr

/-- Python dict assignment `self._jobs[id] = job`, embedded as a shadowing
cons. -/
def registrySet (jobs : List (String × EnterpriseJob)) (jobId : String)
    (job : EnterpriseJob) : List (String × EnterpriseJob) :=
  (jobId, job) :: jobs

/-! ## Enqueue (`EnterpriseJobManager.enqueue_job`) -/

/-- The type-prefixed job id generated when the payload carries none:
`qc-`/`qcf-`/`compose-`/`tts-` plus the first 12 characters of a fresh
uuid, or the bare 12 characters for any other type. -/
def generatedJobId (jobType rawUuid : String) : String :=
  let base := rawUuid.take 12
  if jobType = "quick_create" then "qc-" ++ base
  else if jobType = "quick_create_full_universe" then "qcf-" ++ base
  else if jobType = "compose" then "compose-" ++ base
  else if jobType = "tts" then "tts-" ++ base
  else base

/-- `payload.get("job_id")` followed by `if not job_id`: a missing or empty
id is replaced by a generated one. -/
def resolveJobId (jobType : String) (payloadJobId : Option String)
    (rawUuid : String) : String :=
  match payloadJobId with
  | some id => if id = "" then generatedJobId jobType rawUuid else id
  | none => generatedJobId jobType rawUuid

/-- `payload.get("user_id", "default_user")`. -/
def effectiveUserId (p : Payload) : String := p.userId.getD "default_user"

/-- The payload after `payload["user_id"] = user_id`. -/
def payloadWithUser (p : Payload) : Payload :=
  { p with userId := some (effectiveUserId p) }

/-- Modelled from the spec: `services/credits_calculator.calculate_job_cost`
is absent from src (only its import site exists).  Spec §4.C: a
`quick_create_full_universe` job costs `cost_per_5s(chosen_model) ×
ceil(requested_duration / 5)` with the duration clamped to the model's max;
every other job type costs zero.  The chosen model is resolved from the
payload's style key and optional override exactly as the pipeline does. -/
def calculate_job_cost (jobType : String) (p : Payload) : Nat :=
  if jobType = "quick_create_full_universe" then
    let rd := requestDataOf p
    let model := get_video_model (rd.styleKey.getD "default") rd.videoModel
    let info := (alookup VIDEO_MODELS_INFO model).getD
      { id := model, name := model, tier := "", credits5s := 0,
        maxDuration := 5 }
    let dur := min (rd.videoDuration.getD 5) info.maxDuration
    info.credits5s * ((dur + 4) / 5)
  else 0

/-- The debit description built in `enqueue_job`:
`payload.get("request", {}).get("idea_text", "") or
payload.get("idea_text", "No description")`, truncated to 40 characters. -/
def debitDescription (jobType : String) (p : Payload) : String :=
  let fromReq := (p.request.map (fun r => r.ideaText.getD "")).getD ""
  let idea :=
    if fromReq = "" then p.top.ideaText.getD "No description" else fromReq
  "Job " ++ jobType ++ ": " ++ idea.take 40

/-- The observable result of a call to `enqueue_job`: the raised
insufficient-credits error if any, the manager state afterwards, and the
returned job id on success. -/
structure EnqueueOutcome where
  error : Option String
  state : ManagerState
  jobId : Option String
  deriving DecidableEq, Repr

/-- The tail of `enqueue_job` after the credits block: build the job,
install it in the registry, attempt the store write (swallowing a failing
write, modelled by `dbFail`), push onto the queue and bump the total-jobs
counter. -/
def enqueueInstall (st : ManagerState) (now : Nat) (jobType jobId : String)
    (p2 : Payload) (ledger' : Ledger) (dbFail : Bool) : EnqueueOutcome :=
  let job := mkEnterpriseJob jobId jobType p2 now
  { error := none,
    state :=
      { st with
        jobs := registrySet st.jobs jobId job,
        store :=
          if dbFail then st.store
          else upsert_job st.store now jobId "queued" 0 jobType p2,
        queue := st.queue ++ [job],
        ledger := ledger',
        stats := { st.stats with totalJobs := st.stats.totalJobs + 1 } },
    jobId := some jobId }

/-- `EnterpriseJobManager.enqueue_job`: resolve the id, default the user,
compute the cost; when the cost is positive attempt the debit — a rejected
debit raises `Insufficient credits` and mutates nothing — then record the
cost in the payload and install the job.  `dbFail` models the store write
raising (the code logs and proceeds). -/
def enqueue_job (st : ManagerState) (now : Nat) (jobType : String)
    (payload : Payload) (rawUuid : String) (dbFail : Bool) :
    EnqueueOutcome :=
  let jobId := resolveJobId jobType payload.jobId rawUuid
  let p1 := payloadWithUser payload
  let cost := calculate_job_cost jobType p1
  if 0 < cost then
    match deduct_credits st.ledger (effectiveUserId payload) cost jobId
        (debitDescription jobType p1) with
    | (false, msg, _) =>
        { error := some ("Insufficient credits: " ++ msg), state := st,
          jobId := none }
    | (true, _, ledger') =>
        enqueueInstall st now jobType jobId
          { p1 with creditsCost := some cost } ledger' dbFail
  else
    enqueueInstall st now jobType jobId p1 st.ledger dbFail

/-- The payload an enqueued job ends up carrying: `user_id` defaulted and,
for a costed job, `credits_cost` recorded. -/
def finalEnqueuePayload (jobType : String) (p : Payload) : Payload :=
  let p1 := payloadWithUser p
  let c := calculate_job_cost jobType p1
  if 0 < c then { p1 with creditsCost := some c } else p1

/-! ## Worker processing (`EnterpriseJobManager._process_job`) -/

/-- What the dispatched handler did, as observed by `_process_job`: it
either returned after `elapsed` seconds, or raised `errMsg` with the job's
progress last set to `progressAtFailure` after `elapsed` seconds.  (The
code never consults the elapsed time: no `wait_for` wraps the handler.) -/
inductive HandlerOutcome where
  | success (elapsed : Nat)
  | failure (errMsg : String) (progressAtFailure : Nat) (elapsed : Nat)
  deriving DecidableEq, Repr

/-- `_process_job`: move the job to `processing` (mirroring to the store),
run the handler; on return mark `completed` in memory, `done`/100 in the
store and bump the completed counter; on exception mark `error` with the
message and last progress, mirror `error` to the store, bump the failed
counter, and — when the payload carries a positive `credits_cost` and a
truthy `user_id` — append one refund via `add_credits` (the call passes the
job id only inside the description text, not as a job reference). -/
def process_job (st : ManagerState) (job : EnterpriseJob)
    (outcome : HandlerOutcome) (now : Nat) : ManagerState :=
  let job1 :=
    { job with status := "processing", startedAt := some now, progress := 0 }
  let jobs1 := registrySet st.jobs job.jobId job1
  let store1 :=
    upsert_job st.store now job.jobId "processing" 0 job.jobType job.payload
  match outcome with
  | .success _ =>
      let job2 :=
        { job1 with status := "completed", completedAt := some now,
                    progress := 100 }
      { st with
        jobs := registrySet jobs1 job.jobId job2,
        store :=
          upsert_job store1 now job.jobId "done" 100 job.jobType job.payload,
        stats :=
          { st.stats with completedJobs := st.stats.completedJobs + 1 } }
  | .failure msg p _ =>
      let job2 :=
        { job1 with status := "error", errorMessage := some msg,
                    progress := p }
      let ledger2 :=
        match job.payload.userId with
        | some u =>
            if 0 < job.payload.creditsCost.getD 0 ∧ u ≠ "" then
              add_credits st.ledger u (job.payload.creditsCost.getD 0)
                "refund"
                ("Refund for failed job " ++ job.jobId ++ ": " ++ msg.take 50)
                none
            else st.ledger
        | none => st.ledger
      { st with
        jobs := registrySet jobs1 job.jobId job2,
        store :=
          upsert_job store1 now job.jobId "error" p job.jobType job.payload,
        ledger := ledger2,
        stats := { st.stats with failedJobs := st.stats.failedJobs + 1 } }

/-! ## Cancellation (`EnterpriseJobManager.cancel_job`) -/

/-- `cancel_job`: only a registry job whose status is `queued` is
cancelled; it gets `cancelled` plus a completion time, the cancellation is
mirrored to the store and the cancelled counter bumped.  Any other status,
or an unknown id, returns false and leaves the state untouched.  No ledger
operation appears anywhere in this method. -/
def cancel_job (st : ManagerState) (jobId : String) (now : Nat) :
    Bool × ManagerState :=
  match alookup st.jobs jobId with
  | none => (false, st)
  | some job =>
      if job.status = "queued" then
        (true,
          { st with
            jobs :=
              registrySet st.jobs jobId
                { job with status := "cancelled", completedAt := some now },
            store :=
              upsert_job st.store now jobId "cancelled" job.progress
                job.jobType job.payload,
            stats :=
              { st.stats with
                cancelledJobs := st.stats.cancelledJobs + 1 } })
      else (false, st)

/-! ## Startup recovery (`EnterpriseJobManager.initialize`) -/

/-- The recovery query's state filter:
`WHERE state IN ('queued', 'running', 'processing')`. -/
def recoverableState (s : String) : Bool :=
  s == "queued" || s == "running" || s == "processing"

/-- One recovered job: the stored type with the `unknown`/empty fallback to
`quick_create`, status reset to `queued`, and the persisted progress. -/
def recoveredJob (jobId : String) (row : StoreRow) (now : Nat) :
    EnterpriseJob :=
  let jt :=
    if row.jobType = "" ∨ row.jobType = "unknown" then "quick_create"
    else row.jobType
  { mkEnterpriseJob jobId jt row.payload now with
      status := "queued", progress := row.progress }

/-- One iteration of the recovery loop over a fetched row. -/
def recoverStep (now : Nat) (acc : ManagerState)
    (entry : String × StoreRow) : ManagerState :=
  if recoverableState entry.2.state then
    let job := recoveredJob entry.1 entry.2 now
    { acc with
      jobs := registrySet acc.jobs entry.1 job,
      queue := acc.queue ++ [job] }
  else acc

/-- `EnterpriseJobManager.initialize`: read every stored job whose state is
`queued`, `running` or `processing` and re-install each in the registry as
`queued` with its persisted progress, re-pushing it onto the queue.  The
ledger is never touched. -/
def recover_pending_jobs (st : ManagerState) (now : Nat) : ManagerState :=
  st.store.foldl (recoverStep now) st

/-! ## Mid-run store mirror and status API -/

/-- `_save_job_state`: every phase checkpoint writes state `"running"` with
the job's current progress to the store. -/
def save_job_state (store : Store) (now : Nat) (job : EnterpriseJob) :
    Store :=
  upsert_job store now job.jobId "running" job.progress job.jobType
    job.payload

/-- The JSON body `get_job_status_query` returns (the fields a client
reads). -/
structure StatusResponse where
  jobId : String
  status : String
  progress : Nat
  createdAt : Nat
  message : Option String
  errorMessage : Option String
  deriving DecidableEq, Repr

/-- `get_job_status_query` from `main.py`: 404 on a missing row, otherwise
the row's state string returned verbatim as `status`, with a canned
message for the states `queued`, `running`, `done` and `error`. -/
def get_job_status_query (store : Store) (jobId : String) :
    Option StatusResponse :=
  match alookup store jobId with
  | none => none
  | some row =>
      some
        { jobId := jobId, status := row.state, progress := row.progress,
          createdAt := row.createdAt,
          message :=
            if row.state = "queued" then some "Job is queued for processing"
            else if row.state = "running" then
              some ("Job is in progress (" ++ toString row.progress ++
                "% complete)")
            else if row.state = "done" then
              some "Job completed successfully"
            else if row.state = "error" then
              some "Job failed during processing"
            else none,
          errorMessage :=
            if row.state = "error" then some "Job failed during processing"
            else none }

/-! ## Phase 1.5 of `_process_quick_create_full_universe`: aspect crop

The 9:16 branch runs the ffmpeg scale-and-crop; when the cropped file
exists and is non-empty it replaces `concept.jpg` via `os.replace` and then
executes

  `relative_path = f"media/{job_id}/{image_filename}"`

inside the same `try`.  Name resolution for that f-string is embedded
explicitly: a name evaluates only if it is a local of the method or a
module-level global of `enterprise_manager.py`; otherwise the line raises
`NameError`, which the surrounding `except Exception` swallows. -/

/-- Every name bound in the body (or parameter list) of
`_process_quick_create_full_universe`, in source order. -/
def fullUniverseLocalNames : List String :=
  [ "self", "worker_id", "job",
    "episode_id", "series_id", "character_id", "media_dir",
    "request_data", "idea", "style_key", "video_model_override",
    "video_duration", "video_quality", "aspect_ratio",
    "ASPECT_DIMENSIONS", "width", "height",
    "selected_model", "model_info",
    "image_path", "concept_image_url", "session", "resp", "f", "e",
    "temp_crop_path", "cmd_crop", "cmd_smart_crop", "process",
    "relative_path",
    "output_path", "video_generated", "final_duration", "video_url",
    "final_output_path", "AUDIO_MAPPING", "audio_url", "audio_path",
    "has_audio", "cmd", "refund_error" ]

/-- Every module-level binding of `worker/enterprise_manager.py`. -/
def enterpriseManagerGlobals : List String :=
  [ "asyncio", "time", "uuid", "logging", "Dict", "Any", "List",
    "Optional", "json", "os", "Path", "settings", "get_conn", "upsert_job",
    "subprocess", "aiohttp", "kie_generate_image", "KIE_AVAILABLE",
    "kie_generate_video", "VIDEO_AVAILABLE", "log", "STYLE_TO_MODEL",
    "VIDEO_MODELS_INFO", "get_video_model", "get_available_models",
    "get_style_model_mapping", "EnterpriseJob", "EnterpriseJobManager",
    "enterprise_job_manager" ]

/-- Whether a bare name resolves inside the full-universe handler. -/
def nameResolves (n : String) : Bool :=
  fullUniverseLocalNames.contains n || enterpriseManagerGlobals.contains n

/-- The inputs of the crop phase: the requested aspect ratio, whether
`concept.jpg` exists, whether the ffmpeg crop produced a non-empty
`concept_cropped.jpg`, the image URL carried into the phase, and the
values the URL switch would interpolate. -/
structure CropPhaseInput where
  aspectRatio : String
  imageFileExists : Bool
  cropOutputNonEmpty : Bool
  conceptImageUrl : Option String
  publicBaseUrl : String
  jobIdValue : String
  deriving DecidableEq, Repr

/-- What the crop phase leaves behind: whether the cropped file replaced
`concept.jpg`, the image URL handed to the video-generation phase, and
whether the branch ended in a swallowed exception. -/
structure CropPhaseResult where
  imageReplacedByCrop : Bool
  conceptImageUrl : Option String
  exceptionCaught : Bool
  deriving DecidableEq, Repr

/-- The phase-1.5 block.  After a successful crop and `os.replace`, the
URL-switch line evaluates the names `job_id` and `image_filename`; if
either fails to resolve the line raises `NameError`, the `except` logs it,
and `concept_image_url` keeps its previous value.  (The branch where both
names resolve would build the locally served URL; it is unreachable in the
source because neither name is bound.) -/
def crop_phase (s : CropPhaseInput) : CropPhaseResult :=
  if s.aspectRatio = "9:16" ∧ s.imageFileExists then
    if s.cropOutputNonEmpty then
      if nameResolves "job_id" && nameResolves "image_filename" then
        { imageReplacedByCrop := true,
          conceptImageUrl :=
            some (s.publicBaseUrl ++ "/media/" ++ s.jobIdValue ++
              "/concept.jpg"),
          exceptionCaught := false }
      else
        { imageReplacedByCrop := true,
          conceptImageUrl := s.conceptImageUrl,
          exceptionCaught := true }
    else
      { imageReplacedByCrop := false,
        conceptImageUrl := s.conceptImageUrl,
        exceptionCaught := false }
  else
    { imageReplacedByCrop := false,
      conceptImageUrl := s.conceptImageUrl,
      exceptionCaught := false }

/-! ## Shared demo values -/

/-- A payload with every optional field absent. -/
def emptyPayload : Payload :=
  { jobId := none, userId := none, creditsCost := none, text := none,
    top := RequestData.empty, request := none }

/-- An empty manager: no jobs, no queue, empty store, empty ledger. -/
def demoState0 : ManagerState :=
  { jobs := [], queue := [], store := [], ledger := { txs := [] },
    stats := { totalJobs := 0, completedJobs := 0, failedJobs := 0,
               cancelledJobs := 0 } }

/-- A full-universe submission payload with the default style. -/
def demoSubmitPayload : Payload :=
  { emptyPayload with
      request := some { RequestData.empty with
        ideaText := some "A quiet garden at dawn",
        styleKey := some "default" } }

/-- The opening topup of the funded demo ledger. -/
def demoTopupTx : CreditTx :=
  { user := "default_user", amount := 100, txType := "topup",
    jobRef := none, description := "init" }

/-- A manager whose `default_user` holds 100 credits from one topup. -/
def demoFundedState : ManagerState :=
  { demoState0 with ledger := { txs := [demoTopupTx] } }

/-- A paid full-universe job, already debited, sitting in the registry. -/
def demoFailPayload : Payload :=
  { emptyPayload with userId := some "u1", creditsCost := some 60 }

def demoFailJob : EnterpriseJob :=
  mkEnterpriseJob "qcf-fail00000001" "quick_create_full_universe"
    demoFailPayload 0

/-- The enqueue-time debit of the failing demo job. -/
def demoFailDebitTx : CreditTx :=
  { user := "u1", amount := -60, txType := "debit",
    jobRef := some "qcf-fail00000001",
    description := "Job quick_create_full_universe: No description" }

def demoFailState : ManagerState :=
  { jobs := [("qcf-fail00000001", demoFailJob)], queue := [], store := [],
    ledger := { txs := [demoFailDebitTx] },
    stats := { totalJobs := 1, completedJobs := 0, failedJobs := 0,
               cancelledJobs := 0 } }

/-- A paid, still-queued job together with its enqueue-time debit. -/
def demoCancelPayload : Payload :=
  { emptyPayload with userId := some "u2", creditsCost := some 60 }

def demoCancelJob : EnterpriseJob :=
  mkEnterpriseJob "qcf-cancel000001" "quick_create_full_universe"
    demoCancelPayload 0

/-- The enqueue-time debit of the cancelled demo job. -/
def demoCancelDebitTx : CreditTx :=
  { user := "u2", amount := -60, txType := "debit",
    jobRef := some "qcf-cancel000001",
    description := "Job quick_create_full_universe: No description" }

def demoCancelState : ManagerState :=
  { jobs := [("qcf-cancel000001", demoCancelJob)],
    queue := [demoCancelJob],
    store := [("qcf-cancel000001",
      { state := "queued", progress := 0, createdAt := 0,
        jobType := "quick_create_full_universe",
        payload := demoCancelPayload })],
    ledger := { txs := [demoCancelDebitTx] },
    stats := { totalJobs := 1, completedJobs := 0, failedJobs := 0,
               cancelledJobs := 0 } }

/-- A registered full-universe job used for the timeout experiment. -/
def demoTimeoutJob : EnterpriseJob :=
  mkEnterpriseJob "qcf-timeout00001" "quick_create_full_universe"
    emptyPayload 0

def demoTimeoutState : ManagerState :=
  { jobs := [("qcf-timeout00001", demoTimeoutJob)], queue := [],
    store := [], ledger := { txs := [] },
    stats := { totalJobs := 1, completedJobs := 0, failedJobs := 0,
               cancelledJobs := 0 } }

/-- The registry view of a mid-run job at progress 50. -/
def demoMidRunJob : EnterpriseJob :=
  { mkEnterpriseJob "qcf-abc" "quick_create_full_universe" emptyPayload 0
      with progress := 50 }

/-- A store after the writes of one run: `queued` at enqueue, `processing`
at pickup, then a phase checkpoint via `_save_job_state`. -/
def demoMidRunStore : Store :=
  save_job_state
    (upsert_job
      (upsert_job [] 0 "qcf-abc" "queued" 0 "quick_create_full_universe"
        emptyPayload)
      1 "qcf-abc" "processing" 0 "quick_create_full_universe" emptyPayload)
    2 demoMidRunJob

/-- A store holding a `queued` and a `processing` row, for recovery. -/
def demoRecRowA : StoreRow :=
  { state := "queued", progress := 0, createdAt := 1,
    jobType := "quick_create", payload := emptyPayload }

def demoRecRowB : StoreRow :=
  { state := "processing", progress := 50, createdAt := 2,
    jobType := "quick_create_full_universe", payload := emptyPayload }

/-- The pre-crash debit of the recovered demo job. -/
def demoRecDebitTx : CreditTx :=
  { user := "u3", amount := -60, txType := "debit",
    jobRef := some "qcf-bbb", description := "Job: recovered" }

def demoRecState : ManagerState :=
  { jobs := [], queue := [],
    store := [("qc-aaa", demoRecRowA), ("qcf-bbb", demoRecRowB)],
    ledger := { txs := [demoRecDebitTx] },
    stats := { totalJobs := 0, completedJobs := 0, failedJobs := 0,
               cancelledJobs := 0 } }

/-! ## Helper lemmas -/

theorem alookup_aupdate_self {α : Type} (l : List (String × α)) (key : String)
    (f : α → α) : alookup (aupdate l key f) key = (alookup l key).map f := by
  induction l with
  | nil => rfl
  | cons p rest ih =>
      obtain ⟨k, v⟩ := p
      simp only [aupdate, List.map_cons] at ih ⊢
      by_cases h : k = key
      · rw [if_pos h]
        simp [alookup, h]
      · rw [if_neg h]
        simpa [alookup, h] using ih

theorem alookup_cons_ne {α : Type} (k : String) (v : α)
    (l : List (String × α)) (key : String) (h : k ≠ key) :
    alookup ((k, v) :: l) key = alookup l key := by
  simp [alookup, h]

theorem lookup_upsert_fresh (store : Store) (now : Nat) (jobId state : String)
    (progress : Nat) (jobType : String) (payload : Payload)
    (h : alookup store jobId = none) :
    alookup (upsert_job store now jobId state progress jobType payload)
        jobId =
      some { state := state, progress := progress, createdAt := now,
             jobType := jobType, payload := payload } := by
  simp [upsert_job, h, alookup]

theorem lookup_upsert_existing (store : Store) (now : Nat)
    (jobId state : String) (progress : Nat) (jobType : String)
    (payload : Payload) (r : StoreRow) (h : alookup store jobId = some r) :
    alookup (upsert_job store now jobId state progress jobType payload)
        jobId =
      some { state := state, progress := progress, createdAt := r.createdAt,
             jobType := jobType, payload := payload } := by
  simp [upsert_job, h, alookup_aupdate_self]

/-- After any upsert, the id's row is present. -/
theorem lookup_upsert_isSome (store : Store) (now : Nat)
    (jobId state : String) (progress : Nat) (jobType : String)
    (payload : Payload) :
    ∃ r, alookup (upsert_job store now jobId state progress jobType payload)
        jobId = some r := by
  cases h : alookup store jobId with
  | none =>
      exact ⟨_, lookup_upsert_fresh store now jobId state progress jobType
        payload h⟩
  | some r =>
      exact ⟨_, lookup_upsert_existing store now jobId state progress jobType
        payload r h⟩

/-! ## Claim theorems -/

/-- C6: model resolution.  For every `(style_key, override)` pair: a
present override naming a known model id wins; otherwise the style's
default from the style map is used; and a style key absent from the map
resolves to the configured fallback model (the map's `"default"` entry,
`wan/2-6-text-to-video`), so an unknown style never fails. -/
theorem C6_model_resolution (styleKey : String) (override : Option String) :
    (∀ m, override = some m → isKnownModel m = true →
      get_video_model styleKey override = m) ∧
    (overrideAccepted override = false →
      ∀ d, alookup STYLE_TO_MODEL styleKey = some d →
        get_video_model styleKey override = d) ∧
    (overrideAccepted override = false →
      alookup STYLE_TO_MODEL styleKey = none →
      get_video_model styleKey override = "wan/2-6-text-to-video") := by
  refine ⟨?_, ?_, ?_⟩
  · intro m hm hk
    subst hm
    have hne : m ≠ "" := by
      intro h
      subst h
      exact absurd hk (by decide)
    simp [get_video_model, hk, hne]
  · intro hov d hd
    cases override with
    | none => simp [get_video_model, styleDefaultModel, hd]
    | some m =>
        simp only [overrideAccepted] at hov
        simp [get_video_model, hov, styleDefaultModel, hd]
  · intro hov hd
    cases override with
    | none =>
        simp [get_video_model, styleDefaultModel, hd]
        decide
    | some m =>
        simp only [overrideAccepted] at hov
        simp [get_video_model, hov, styleDefaultModel, hd]
        decide

/-- Witness for C6 at concrete inputs: a known override wins, a mapped
style picks its default, and an unknown style key falls back. -/
theorem C6_model_resolution_witness :
    get_video_model "anime_style" (some "veo3") = "veo3" ∧
    get_video_model "anime_style" none = "wan/2-6-text-to-video" ∧
    get_video_model "no_such_style" (some "not-a-model") =
      "wan/2-6-text-to-video" := by
  refine ⟨(C6_model_resolution "anime_style" (some "veo3")).1 "veo3" rfl
      (by decide), ?_, ?_⟩
  · exact (C6_model_resolution "anime_style" none).2.1 (by decide)
      "wan/2-6-text-to-video" (by decide)
  · exact (C6_model_resolution "no_such_style" (some "not-a-model")).2.2
      (by decide) (by decide)

/-- C9: the job-store upsert.  A missing id is inserted with
`created_at = now`; an existing id has its state, progress, job_type and
payload replaced while `created_at` is preserved, in particular across any
pair of successive upserts of the same id. -/
theorem C9_upsert_semantics (store : Store) (now : Nat)
    (jobId state : String) (progress : Nat) (jobType : String)
    (payload : Payload) :
    (alookup store jobId = none →
      alookup (upsert_job store now jobId state progress jobType payload)
          jobId =
        some { state := state, progress := progress, createdAt := now,
               jobType := jobType, payload := payload }) ∧
    (∀ r, alookup store jobId = some r →
      alookup (upsert_job store now jobId state progress jobType payload)
          jobId =
        some { state := state, progress := progress,
               createdAt := r.createdAt, jobType := jobType,
               payload := payload }) ∧
    (∀ now₂ state₂ progress₂ jobType₂ payload₂,
      alookup store jobId = none →
      alookup (upsert_job
          (upsert_job store now jobId state progress jobType payload)
          now₂ jobId state₂ progress₂ jobType₂ payload₂) jobId =
        some { state := state₂, progress := progress₂, createdAt := now,
               jobType := jobType₂, payload := payload₂ }) := by
  refine ⟨fun h => lookup_upsert_fresh _ _ _ _ _ _ _ h,
    fun r h => lookup_upsert_existing _ _ _ _ _ _ _ r h,
    fun now₂ state₂ progress₂ jobType₂ payload₂ h => ?_⟩
  exact lookup_upsert_existing _ _ _ _ _ _ _ _
    (lookup_upsert_fresh store now jobId state progress jobType payload h)

/-- Witness for C9: insert at time 5, update at time 9; the row keeps
`created_at = 5` while state and progress change. -/
theorem C9_upsert_semantics_witness :
    alookup (upsert_job (upsert_job [] 5 "j1" "queued" 0 "tts" emptyPayload)
        9 "j1" "done" 100 "tts" emptyPayload) "j1" =
      some { state := "done", progress := 100, createdAt := 5,
             jobType := "tts", payload := emptyPayload } :=
  (C9_upsert_semantics [] 5 "j1" "queued" 0 "tts" emptyPayload).2.2
    9 "done" 100 "tts" emptyPayload rfl

/-- C8: in the 9:16 full-universe pipeline the post-crop URL switch never
happens.  The line that would rebuild `concept_image_url` from the cropped
file interpolates the names `job_id` and `image_filename`, neither of
which is bound in the handler or module scope, so it raises `NameError`;
the surrounding `except` swallows it and the provider's remote URL flows
into the video-generation call even though the cropped file has already
replaced `concept.jpg`. -/
theorem C8_crop_url_never_switched :
    nameResolves "job_id" = false ∧
    nameResolves "image_filename" = false ∧
    crop_phase
        { aspectRatio := "9:16", imageFileExists := true,
          cropOutputNonEmpty := true,
          conceptImageUrl := some "https://tempfile.kie.example/c.png",
          publicBaseUrl := "https://api.genscene.example",
          jobIdValue := "qcf-0123456789ab" } =
      { imageReplacedByCrop := true,
        conceptImageUrl := some "https://tempfile.kie.example/c.png",
        exceptionCaught := true } := by
  exact ⟨by decide, by decide, by decide⟩

/-- C3: a submission whose debit is rejected for insufficient funds raises
the insufficient-credits error and mutates nothing: the returned state is
the original one — no store row, no registry entry, no queue push, and the
balance and transaction log are untouched. -/
theorem C3_insufficient_funds_no_mutation (st : ManagerState) (now : Nat)
    (jobType : String) (payload : Payload) (rawUuid : String) (dbFail : Bool)
    (hcost : 0 < calculate_job_cost jobType (payloadWithUser payload))
    (hbal : balanceOf st.ledger (effectiveUserId payload) <
      (calculate_job_cost jobType (payloadWithUser payload) : Int)) :
    enqueue_job st now jobType payload rawUuid dbFail =
      { error := some "Insufficient credits: insufficient", state := st,
        jobId := none } := by
  have hded : deduct_credits st.ledger (effectiveUserId payload)
      (calculate_job_cost jobType (payloadWithUser payload))
      (resolveJobId jobType payload.jobId rawUuid)
      (debitDescription jobType (payloadWithUser payload)) =
      (false, "insufficient", st.ledger) := by
    unfold deduct_credits
    rw [if_neg]
    rintro ⟨-, hle⟩
    exact absurd hle (not_le.mpr hbal)
  simp only [enqueue_job]
  rw [if_pos hcost, hded]
  rfl

/-- Witness for C3: the default-style full-universe submission costs 60
credits; against an empty ledger the debit is rejected and the manager is
returned unchanged. -/
theorem C3_insufficient_funds_no_mutation_witness :
    0 < calculate_job_cost "quick_create_full_universe"
      (payloadWithUser demoSubmitPayload) ∧
    enqueue_job demoState0 3 "quick_create_full_universe" demoSubmitPayload
        "abcdef12345678" false =
      { error := some "Insufficient credits: insufficient",
        state := demoState0, jobId := none } :=
  ⟨by decide,
    C3_insufficient_funds_no_mutation demoState0 3
      "quick_create_full_universe" demoSubmitPayload "abcdef12345678" false
      (by decide) (by decide)⟩

/-- C10: a failing job-store write during enqueue is swallowed.  With the
store write raising (`dbFail = true`) and the debit passing, the job is
still installed in the registry, pushed onto the queue, counted in the
total-jobs stat, and its id is returned — while the store is left exactly
as it was, so no durable `queued` row exists. -/
theorem C10_enqueue_survives_store_failure (st : ManagerState) (now : Nat)
    (jobType : String) (payload : Payload) (rawUuid : String)
    (hfunds : 0 < calculate_job_cost jobType (payloadWithUser payload) →
      (calculate_job_cost jobType (payloadWithUser payload) : Int) ≤
        balanceOf st.ledger (effectiveUserId payload)) :
    (enqueue_job st now jobType payload rawUuid true).error = none ∧
    (enqueue_job st now jobType payload rawUuid true).jobId =
      some (resolveJobId jobType payload.jobId rawUuid) ∧
    (enqueue_job st now jobType payload rawUuid true).state.store =
      st.store ∧
    alookup (enqueue_job st now jobType payload rawUuid true).state.jobs
        (resolveJobId jobType payload.jobId rawUuid) =
      some (mkEnterpriseJob (resolveJobId jobType payload.jobId rawUuid)
        jobType (finalEnqueuePayload jobType payload) now) ∧
    mkEnterpriseJob (resolveJobId jobType payload.jobId rawUuid) jobType
        (finalEnqueuePayload jobType payload) now ∈
      (enqueue_job st now jobType payload rawUuid true).state.queue ∧
    (enqueue_job st now jobType payload rawUuid true).state.stats.totalJobs =
      st.stats.totalJobs + 1 := by
  by_cases hc : 0 < calculate_job_cost jobType (payloadWithUser payload)
  · simp only [enqueue_job, finalEnqueuePayload, deduct_credits]
    rw [if_pos hc, if_pos ⟨hc, hfunds hc⟩, if_pos hc]
    simp [enqueueInstall, registrySet, alookup]
  · simp only [enqueue_job, finalEnqueuePayload]
    rw [if_neg hc, if_neg hc]
    simp [enqueueInstall, registrySet, alookup]

/-- Witness for C10: a funded full-universe submission with the store
write failing still lands in the registry and queue, the total counter
reaches 1 and the store stays empty. -/
theorem C10_enqueue_survives_store_failure_witness :
    (enqueue_job demoFundedState 4 "quick_create_full_universe"
      demoSubmitPayload "0123456789abcdef" true).error = none ∧
    (enqueue_job demoFundedState 4 "quick_create_full_universe"
      demoSubmitPayload "0123456789abcdef" true).state.store = [] ∧
    (enqueue_job demoFundedState 4 "quick_create_full_universe"
      demoSubmitPayload "0123456789abcdef" true).state.stats.totalJobs =
      1 := by
  have h := C10_enqueue_survives_store_failure demoFundedState 4
    "quick_create_full_universe" demoSubmitPayload "0123456789abcdef"
    (fun _ => by decide)
  exact ⟨h.1, h.2.2.1, h.2.2.2.2.2⟩

/-- Counterexample to C5: a handler that runs for 301 s — past the job's
300 s default timeout — and then returns is not treated as failed: the job
ends `completed` (store `done`), not `error`, and no refund is issued. -/
theorem C5_counterexample_timeout_not_enforced :
    demoTimeoutJob.timeout = 300 ∧
    300 < 301 ∧
    (alookup (process_job demoTimeoutState demoTimeoutJob
        (HandlerOutcome.success 301) 400).jobs "qcf-timeout00001").map
        EnterpriseJob.status = some "completed" ∧
    (alookup (process_job demoTimeoutState demoTimeoutJob
        (HandlerOutcome.success 301) 400).store "qcf-timeout00001").map
        StoreRow.state = some "done" ∧
    (process_job demoTimeoutState demoTimeoutJob
        (HandlerOutcome.success 301) 400).ledger =
      demoTimeoutState.ledger := by
  refine ⟨rfl, by decide, ?_, ?_, ?_⟩ <;> decide

/-- C5 (amended): the per-job timeout field defaults to 300 s but is never
consulted — the dispatcher's resulting state is independent of how long
the handler ran, for success and failure alike, so a handler may run
arbitrarily far past the bound without the job being failed or refunded. -/
theorem C5_amended_runtime_independent :
    (∀ (st : ManagerState) (job : EnterpriseJob) (now e₁ e₂ : Nat),
      process_job st job (HandlerOutcome.success e₁) now =
        process_job st job (HandlerOutcome.success e₂) now) ∧
    (∀ (st : ManagerState) (job : EnterpriseJob) (msg : String)
        (p now e₁ e₂ : Nat),
      process_job st job (HandlerOutcome.failure msg p e₁) now =
        process_job st job (HandlerOutcome.failure msg p e₂) now) ∧
    (∀ (jobId jobType : String) (payload : Payload) (now : Nat),
      (mkEnterpriseJob jobId jobType payload now).timeout = 300) := by
  exact ⟨fun _ _ _ _ _ => rfl, fun _ _ _ _ _ _ _ => rfl,
    fun _ _ _ _ => rfl⟩

/-- Counterexample to C7: the status endpoint returns the stored state
string verbatim, and the worker's phase checkpoints write `running` to the
store; a client polling a mid-run job therefore observes `running`, which
is not among the five documented client statuses. -/
theorem C7_counterexample_running_leaks :
    (get_job_status_query demoMidRunStore "qcf-abc").map
        StatusResponse.status = some "running" ∧
    "running" ∉ ["queued", "processing", "done", "error", "cancelled"] := by
  exact ⟨by decide, by decide⟩

/-- C7 (amended): `get_job_status_query` performs no translation at all —
it returns the store's state string verbatim for every row — and
`_save_job_state` writes the internal state `running` while a job is
mid-run, so that internal name reaches clients untranslated. -/
theorem C7_amended_status_verbatim (store : Store) (jobId : String)
    (row : StoreRow) (now : Nat) (job : EnterpriseJob)
    (h : alookup store jobId = some row) :
    (get_job_status_query store jobId).map StatusResponse.status =
      some row.state ∧
    (alookup (save_job_state store now job) job.jobId).map StoreRow.state =
      some "running" := by
  constructor
  · simp [get_job_status_query, h]
  · unfold save_job_state
    cases hl : alookup store job.jobId with
    | none =>
        rw [lookup_upsert_fresh _ _ _ _ _ _ _ hl]
        rfl
    | some r =>
        rw [lookup_upsert_existing _ _ _ _ _ _ _ _ hl]
        rfl

/-- Witness for C7 (amended) on the demo mid-run store: the row's state
`running` is what the endpoint reports, and a further phase checkpoint
keeps the store at `running`. -/
theorem C7_amended_status_verbatim_witness :
    (get_job_status_query demoMidRunStore "qcf-abc").map
        StatusResponse.status = some "running" ∧
    (alookup (save_job_state demoMidRunStore 9 demoMidRunJob)
        "qcf-abc").map StoreRow.state = some "running" := by
  have h := C7_amended_status_verbatim demoMidRunStore "qcf-abc"
    { state := "running", progress := 50, createdAt := 0,
      jobType := "quick_create_full_universe", payload := emptyPayload }
    9 demoMidRunJob (by decide)
  exact ⟨h.1, h.2⟩

/-- Counterexample to C1: after a handler failure the ledger holds no
refund transaction whose job reference is the failed job's id — the worker
passes the id only inside the free-text description, so the claimed
job-id-tagged refund does not exist. -/
theorem C1_counterexample_refund_untagged :
    ¬ ∃ tx ∈ (process_job demoFailState demoFailJob
        (HandlerOutcome.failure "boom" 50 3) 9).ledger.txs,
      tx.txType = "refund" ∧ tx.jobRef = some "qcf-fail00000001" := by
  decide

/-- C1 (amended): on a handler exception the worker marks the job `error`
with the message, mirrors `error` with the last published progress to the
store, increments the failed counter, and — when the payload carries
`credits_cost > 0` and a truthy `user_id` — appends exactly one refund of
exactly `credits_cost` to that user; the refund's job-reference field is
`none` and the job id appears only inside its description text. -/
theorem C1_amended_failure_path (st : ManagerState) (job : EnterpriseJob)
    (msg : String) (p elapsed now : Nat) (c : Nat) (u : String)
    (hc : job.payload.creditsCost = some c) (hcpos : 0 < c)
    (hu : job.payload.userId = some u) (hune : u ≠ "") :
    alookup (process_job st job (HandlerOutcome.failure msg p elapsed)
        now).jobs job.jobId =
      some { job with
             status := "error", startedAt := some now,
             progress := p, errorMessage := some msg } ∧
    (alookup (process_job st job (HandlerOutcome.failure msg p elapsed)
        now).store job.jobId).map StoreRow.state = some "error" ∧
    (alookup (process_job st job (HandlerOutcome.failure msg p elapsed)
        now).store job.jobId).map StoreRow.progress = some p ∧
    (process_job st job (HandlerOutcome.failure msg p elapsed)
        now).stats.failedJobs = st.stats.failedJobs + 1 ∧
    (process_job st job (HandlerOutcome.failure msg p elapsed)
        now).ledger.txs =
      { user := u, amount := (c : Int), txType := "refund", jobRef := none,
        description := "Refund for failed job " ++ job.jobId ++ ": " ++
          msg.take 50 } :: st.ledger.txs := by
  have hgetD : job.payload.creditsCost.getD 0 = c := by
    rw [hc]
    rfl
  obtain ⟨r1, hr1⟩ := lookup_upsert_isSome st.store now job.jobId
    "processing" 0 job.jobType job.payload
  refine ⟨?_, ?_, ?_, ?_, ?_⟩
  · simp [process_job, registrySet, alookup]
  · simp only [process_job]
    rw [lookup_upsert_existing _ _ _ _ _ _ _ _ hr1]
    rfl
  · simp only [process_job]
    rw [lookup_upsert_existing _ _ _ _ _ _ _ _ hr1]
    rfl
  · simp only [process_job]
  · simp only [process_job, hu, hgetD]
    rw [if_pos ⟨hcpos, hune⟩]
    rfl

/-- Witness for C1 (amended) on the demo failing job: the registry carries
the error record, the store mirrors `error` at progress 50, the failure
counter reaches 1, and one 60-credit refund with an empty job reference is
prepended to the ledger. -/
theorem C1_amended_failure_path_witness :
    alookup (process_job demoFailState demoFailJob
        (HandlerOutcome.failure "boom" 50 3) 9).jobs "qcf-fail00000001" =
      some { demoFailJob with
             status := "error", startedAt := some 9,
             progress := 50, errorMessage := some "boom" } ∧
    (alookup (process_job demoFailState demoFailJob
        (HandlerOutcome.failure "boom" 50 3) 9).store
        "qcf-fail00000001").map StoreRow.state = some "error" ∧
    (alookup (process_job demoFailState demoFailJob
        (HandlerOutcome.failure "boom" 50 3) 9).store
        "qcf-fail00000001").map StoreRow.progress = some 50 ∧
    (process_job demoFailState demoFailJob
        (HandlerOutcome.failure "boom" 50 3) 9).stats.failedJobs = 0 + 1 ∧
    (process_job demoFailState demoFailJob
        (HandlerOutcome.failure "boom" 50 3) 9).ledger.txs =
      { user := "u1", amount := (60 : Int), txType := "refund",
        jobRef := none,
        description := "Refund for failed job " ++ "qcf-fail00000001" ++
          ": " ++ String.take "boom" 50 } :: demoFailState.ledger.txs :=
  C1_amended_failure_path demoFailState demoFailJob "boom" 50 3 9 60 "u1"
    rfl (by decide) rfl (by decide)

/-- Counterexample to C2: cancelling the queued demo job returns true and
transitions it to `cancelled`, but no refund transaction of any kind is
appended to the ledger — the claimed refund of `credits_cost` is absent. -/
theorem C2_counterexample_no_refund_on_cancel :
    (cancel_job demoCancelState "qcf-cancel000001" 7).1 = true ∧
    (alookup (cancel_job demoCancelState "qcf-cancel000001" 7).2.jobs
        "qcf-cancel000001").map EnterpriseJob.status = some "cancelled" ∧
    ¬ ∃ tx ∈ (cancel_job demoCancelState "qcf-cancel000001" 7).2.ledger.txs,
      tx.txType = "refund" := by
  refine ⟨by decide, by decide, by decide⟩

/-- C2 (amended): cancelling a `queued` job returns true, transitions it
to `cancelled`, mirrors the cancellation to the store and bumps the
cancelled counter, but issues no refund — the ledger (and the queue) are
untouched; for a job in any other state, or an unknown id, cancel returns
false and mutates nothing. -/
theorem C2_amended_cancel_without_refund (st : ManagerState)
    (jobId : String) (now : Nat) :
    (∀ job, alookup st.jobs jobId = some job → job.status = "queued" →
      cancel_job st jobId now =
        (true,
          { st with
            jobs := registrySet st.jobs jobId
              { job with status := "cancelled", completedAt := some now },
            store := upsert_job st.store now jobId "cancelled" job.progress
              job.jobType job.payload,
            stats := { st.stats with
              cancelledJobs := st.stats.cancelledJobs + 1 } })) ∧
    (∀ job, alookup st.jobs jobId = some job → job.status = "queued" →
      (cancel_job st jobId now).2.ledger = st.ledger ∧
      (cancel_job st jobId now).2.queue = st.queue) ∧
    (∀ job, alookup st.jobs jobId = some job → job.status ≠ "queued" →
      cancel_job st jobId now = (false, st)) ∧
    (alookup st.jobs jobId = none →
      cancel_job st jobId now = (false, st)) := by
  refine ⟨?_, ?_, ?_, ?_⟩
  · intro job hl hq
    simp only [cancel_job, hl]
    rw [if_pos hq]
  · intro job hl hq
    simp only [cancel_job, hl]
    rw [if_pos hq]
    exact ⟨rfl, rfl⟩
  · intro job hl hq
    simp only [cancel_job, hl]
    rw [if_neg hq]
  · intro hl
    simp only [cancel_job, hl]

/-- Witness for C2 (amended): the queued demo job cancels with ledger and
queue untouched, and an unknown id cancels to false with no mutation. -/
theorem C2_amended_cancel_without_refund_witness :
    (cancel_job demoCancelState "qcf-cancel000001" 7).1 = true ∧
    (cancel_job demoCancelState "qcf-cancel000001" 7).2.ledger =
      demoCancelState.ledger ∧
    (cancel_job demoCancelState "qcf-cancel000001" 7).2.queue =
      demoCancelState.queue ∧
    cancel_job demoCancelState "nope" 7 = (false, demoCancelState) := by
  have h := C2_amended_cancel_without_refund demoCancelState
    "qcf-cancel000001" 7
  have h2 := C2_amended_cancel_without_refund demoCancelState "nope" 7
  have hl : alookup demoCancelState.jobs "qcf-cancel000001" =
      some demoCancelJob := by decide
  refine ⟨?_, (h.2.1 demoCancelJob hl rfl).1, (h.2.1 demoCancelJob hl rfl).2,
    h2.2.2.2 (by decide)⟩
  rw [h.1 demoCancelJob hl rfl]

/-- The recovery fold never touches the ledger. -/
theorem recoverFold_ledger (now : Nat) (rows : List (String × StoreRow)) :
    ∀ acc : ManagerState,
      (rows.foldl (recoverStep now) acc).ledger = acc.ledger := by
  induction rows with
  | nil => intro acc; rfl
  | cons r rest ih =>
      intro acc
      rw [List.foldl_cons, ih]
      unfold recoverStep
      split <;> rfl

/-- The recovery fold only appends to the queue. -/
theorem recoverFold_queue_mono (now : Nat) (rows : List (String × StoreRow))
    (j : EnterpriseJob) :
    ∀ acc : ManagerState, j ∈ acc.queue →
      j ∈ (rows.foldl (recoverStep now) acc).queue := by
  induction rows with
  | nil => intro acc h; exact h
  | cons r rest ih =>
      intro acc h
      rw [List.foldl_cons]
      apply ih
      unfold recoverStep
      split
      · exact List.mem_append_left _ h
      · exact h

/-- Keys not named by any remaining row are untouched in the registry. -/
theorem recoverFold_lookup_skip (now : Nat)
    (rows : List (String × StoreRow)) (id : String) :
    ∀ acc : ManagerState, id ∉ rows.map Prod.fst →
      alookup (rows.foldl (recoverStep now) acc).jobs id =
        alookup acc.jobs id := by
  induction rows with
  | nil => intro acc _; rfl
  | cons r rest ih =>
      intro acc h
      rw [List.map_cons, List.mem_cons] at h
      push_neg at h
      rw [List.foldl_cons, ih _ h.2]
      unfold recoverStep
      split
      · exact alookup_cons_ne _ _ _ _ (fun he => h.1 he.symm)
      · rfl

/-- A recoverable row reachable through the fold ends up in the registry
as its recovered job and on the queue. -/
theorem recoverFold_lookup_mem (now : Nat) (id : String) (row : StoreRow) :
    ∀ (rows : List (String × StoreRow)) (acc : ManagerState),
      (rows.map Prod.fst).Nodup → (id, row) ∈ rows →
      recoverableState row.state = true →
      alookup (rows.foldl (recoverStep now) acc).jobs id =
        some (recoveredJob id row now) ∧
      recoveredJob id row now ∈ (rows.foldl (recoverStep now) acc).queue := by
  intro rows
  induction rows with
  | nil => intro acc _ hmem _; cases hmem
  | cons r rest ih =>
      intro acc hnd hmem hrec
      rw [List.foldl_cons]
      rcases List.mem_cons.mp hmem with heq | hmem'
      · subst heq
        have hid : id ∉ rest.map Prod.fst := by
          rw [List.map_cons] at hnd
          exact (List.nodup_cons.mp hnd).1
        have hacc : recoverStep now acc (id, row) =
            { acc with
              jobs := registrySet acc.jobs id (recoveredJob id row now),
              queue := acc.queue ++ [recoveredJob id row now] } := by
          unfold recoverStep
          rw [if_pos hrec]
        rw [hacc]
        constructor
        · rw [recoverFold_lookup_skip now rest id _ hid]
          simp [registrySet, alookup]
        · apply recoverFold_queue_mono
          simp
      · have hnd' : (rest.map Prod.fst).Nodup := by
          rw [List.map_cons] at hnd
          exact (List.nodup_cons.mp hnd).2
        exact ih (recoverStep now acc r) hnd' hmem' hrec

/-- C4: startup recovery.  Every stored row in state `queued` or
`processing` (the query also takes `running`) is re-installed in the
registry in state `queued` with its persisted progress and re-pushed onto
the work queue, and the recovery pass records no ledger transaction at
all, so no job is re-debited. -/
theorem C4_recovery_requeues_without_debit (st : ManagerState) (now : Nat)
    (id : String) (row : StoreRow)
    (hmem : (id, row) ∈ st.store)
    (hstate : row.state = "queued" ∨ row.state = "processing")
    (hnodup : (st.store.map Prod.fst).Nodup) :
    alookup (recover_pending_jobs st now).jobs id =
      some (recoveredJob id row now) ∧
    (recoveredJob id row now).status = "queued" ∧
    (recoveredJob id row now).progress = row.progress ∧
    recoveredJob id row now ∈ (recover_pending_jobs st now).queue ∧
    (recover_pending_jobs st now).ledger = st.ledger := by
  have hrec : recoverableState row.state = true := by
    rcases hstate with h | h <;> rw [h] <;> rfl
  have hmain := recoverFold_lookup_mem now id row st.store st hnodup hmem
    hrec
  exact ⟨hmain.1, rfl, rfl, hmain.2, recoverFold_ledger now st.store st⟩

/-- Witness for C4 on a two-row store (`queued` and `processing`): the
`processing` row comes back as a queued registry job at its persisted
progress 50, it sits on the queue, and the ledger still holds exactly the
original debit. -/
theorem C4_recovery_requeues_without_debit_witness :
    alookup (recover_pending_jobs demoRecState 9).jobs "qcf-bbb" =
      some (recoveredJob "qcf-bbb" demoRecRowB 9) ∧
    (recoveredJob "qcf-bbb" demoRecRowB 9).status = "queued" ∧
    (recoveredJob "qcf-bbb" demoRecRowB 9).progress = 50 ∧
    recoveredJob "qcf-bbb" demoRecRowB 9 ∈
      (recover_pending_jobs demoRecState 9).queue ∧
    (recover_pending_jobs demoRecState 9).ledger =
      { txs := [demoRecDebitTx] } :=
  C4_recovery_requeues_without_debit demoRecState 9 "qcf-bbb" demoRecRowB
    (by decide) (Or.inr rfl) (by decide)

end GenScene
